import Mathlib

/-!
Verification of the KFC drive-through ordering system (`drive_thru_system.py`).

The development embeds, as executable Lean definitions, the parts of
`DriveThruSystem` that the claims are about:

* `listenModel`      — `listen` (timeout / transcription outcomes);
* `classifyCmd`      — the command recognition inside `get_customer_order_simple`
                       (`0` repeat, `6` cancel, `1..4` select, by substring
                       containment over the lowercased stripped text);
* `simpleLoop` / `runSimple` — the bounded dialogue loop of
                       `get_customer_order_simple`, driven by a stream of
                       listen results;
* `handoffToOperator` / `handoffToOperatorSimple` / `processCustomerSimple`
                     — the hand-off path and the records pushed to
                       `order_queue`;
* `processOrderWithOllama` / `continuousFinish` — the optional order-text
                       post-processor and the tail of
                       `get_customer_order_continuous`;
* `startFlags`       — the presence-detection latch of `run` (one flag per
                       observed sample of `detect_car_approach`, `true` when
                       `process_customer` is invoked at that step).

Machine-level Python details kept: `str.strip` whitespace set, `str.lower`,
substring search via `in`, Python truthiness of strings and of
`selected_offer`, list slicing `[:4]`, and the `IndexError` that offers
indexing can raise (modelled as `Except.error ()`).
-/

/-- Characters removed by Python `str.strip()` with no argument. -/
def pyWhitespace (c : Char) : Bool :=
  c == ' ' || c == '\t' || c == '\n' || c == '\r' || c == '\x0b' || c == '\x0c'

/-- Python `str.strip()` on a character list. -/
def pyStrip (l : List Char) : List Char :=
  ((l.dropWhile pyWhitespace).reverse.dropWhile pyWhitespace).reverse

/-- Python `str.lower()` on a character list (ASCII-adequate). -/
def toLowerChars (l : List Char) : List Char :=
  l.map Char.toLower

/-- Python `str.strip()` at `String` type. -/
def pyStripStr (s : String) : String :=
  String.mk (pyStrip s.data)

/-- Python `str.lower()` at `String` type. -/
def lowerStr (s : String) : String :=
  String.mk (toLowerChars s.data)

/-- Python substring test `pat in text`. -/
def hasSub (pat : List Char) : List Char → Bool
  | [] => pat.isEmpty
  | c :: rest => pat.isPrefixOf (c :: rest) || hasSub pat rest

/-- The source's `_number_to_word`: word form of a code, `str(num)` past ten. -/
def numberToWord (num : Nat) : String :=
  match num with
  | 0 => "zero"
  | 1 => "one"
  | 2 => "two"
  | 3 => "three"
  | 4 => "four"
  | 5 => "five"
  | 6 => "six"
  | 7 => "seven"
  | 8 => "eight"
  | 9 => "nine"
  | 10 => "ten"
  | n => Nat.repr n

/-- `menu_choices = 4` in `get_customer_order_simple`. -/
def menuChoices : Nat := 4

/-- `max_repeats = 3` in `get_customer_order_simple`. -/
def maxRepeats : Nat := 3

/-- The source's test `str(i) in response_lower or self._number_to_word(i) in
response_lower` for a code `i` over the lowercased text `rl`. -/
def trigger (i : Nat) (rl : List Char) : Bool :=
  hasSub (Nat.repr i).data rl || hasSub (numberToWord i).data rl

/-- The extra repeat trigger `"repeat" in response_lower and
len(response_lower) < 15`. -/
def repeatExtraCond (rl : List Char) : Bool :=
  hasSub ("repeat".data) rl && decide (rl.length < 15)

/-- The selection scan `for i in range(1, menu_choices + 1): if ... break`. -/
def findSelected (rl : List Char) : List Nat → Option Nat
  | [] => none
  | i :: rest => if trigger i rl then some i else findSelected rl rest

/-- Command classes recognized by `get_customer_order_simple`. -/
inductive SimpleCmd where
  | repeatMenu
  | cancelOrder
  | chooseItem (i : Nat)
  | invalid
deriving DecidableEq, Repr

/-- The command checks of `get_customer_order_simple`, in source order:
repeat (`0` / `"zero"` / short `"repeat"`), then cancel (`6` / `"six"`), then
first-match selection over codes `1..menu_choices`. -/
def classifyCmd (rl : List Char) : SimpleCmd :=
  if trigger 0 rl || repeatExtraCond rl then .repeatMenu
  else if trigger 6 rl then .cancelOrder
  else
    match findSelected rl (List.range' 1 menuChoices) with
    | some i => .chooseItem i
    | none => .invalid

example : classifyCmd ("zero six two".data) = .repeatMenu := by decide
example : classifyCmd ("6 2".data) = .cancelOrder := by decide
example : classifyCmd ("i will have number two".data) = .chooseItem 2 := by decide
example : classifyCmd ("hello there".data) = .invalid := by decide
example : classifyCmd ("repeat six".data) = .repeatMenu := by decide
example : classifyCmd ("zerone".data) = .repeatMenu := by decide
example : classifyCmd ("zer1".data) = .chooseItem 1 := by decide

/-- The dictionary returned by `get_customer_order_simple`. -/
structure SimpleResult where
  full_order_text : Option String
  selected_offer : Option Nat
  order_phrases : List String
  car_number : Option Nat
  order_id : Option String
  cancelled : Bool
deriving DecidableEq, Repr

/-- The dictionary returned when the attempt budget is exhausted
(`cancelled: False`, everything else empty). -/
def emptySimpleResult : SimpleResult :=
  { full_order_text := none, selected_offer := none, order_phrases := [],
    car_number := none, order_id := none, cancelled := false }

/-- The dictionary returned on the cancel branch (`cancelled: True`). -/
def cancelledSimpleResult : SimpleResult :=
  { emptySimpleResult with cancelled := true }

/-- The dictionary returned on a confirmed selection `i` with displayed order
text `display` and freshly incremented car number `n`. -/
def confirmedResult (i : Nat) (display : String) (n : Nat) : SimpleResult :=
  { full_order_text := some display, selected_offer := some i,
    order_phrases := [display], car_number := some n,
    order_id := some ("Car " ++ Nat.repr n), cancelled := false }

/-- Outcome of one iteration of the `for _ in range(max_repeats + 1)` loop:
`retry b` means `continue` (with `b` true when the menu was re-announced on
the repeat branch), `finish` means `return`, `crash` is the `IndexError`
raised by `offers[selected_offer - 1]` when the sliced menu is too short. -/
inductive IterOut where
  | retry (reannounced : Bool)
  | finish (r : SimpleResult) (carNum : Nat)
  | crash
deriving DecidableEq, Repr

/-- One iteration of the body of `get_customer_order_simple`, given the
current `_car_number` and the result of `listen`. -/
def simpleIter (offers : List String) (carNum : Nat) (response : Option String) : IterOut :=
  let order_text : Option (List Char) :=
    match response with
    | none => none
    | some s =>
      let t := pyStrip s.data
      if t.isEmpty then none else some t
  match order_text with
  | none => .retry false
  | some t =>
    let rl := pyStrip (toLowerChars t)
    match classifyCmd rl with
    | .repeatMenu => .retry true
    | .cancelOrder => .finish cancelledSimpleResult carNum
    | .chooseItem i =>
      let offersCut := offers.take menuChoices
      if i != 0 && !offersCut.isEmpty then
        match offersCut.get? (i - 1) with
        | some o => .finish (confirmedResult i o (carNum + 1)) (carNum + 1)
        | none => .crash
      else .finish (confirmedResult i (String.mk t) (carNum + 1)) (carNum + 1)
    | .invalid => .retry false

/-- Listen / re-announcement counters accumulated by one session. -/
structure RunStats where
  listens : Nat
  reannounces : Nat
deriving DecidableEq, Repr

/-- Adds one listen and `r` re-announcements to the counters of a loop
continuation. -/
def bumpStats (r : Nat) :
    Except Unit (SimpleResult × Nat × RunStats) →
    Except Unit (SimpleResult × Nat × RunStats)
  | .error e => .error e
  | .ok (res, cn, st) => .ok (res, cn, ⟨st.listens + 1, st.reannounces + r⟩)

/-- The loop of `get_customer_order_simple`: `fuel` iterations remain, `idx`
indexes the stream of `listen` results. `Except.error ()` is the Python
`IndexError`. -/
def simpleLoop (offers : List String) (input : Nat → Option String) (carNum : Nat) :
    Nat → Nat → Except Unit (SimpleResult × Nat × RunStats)
  | 0, _ => .ok (emptySimpleResult, carNum, ⟨0, 0⟩)
  | fuel + 1, idx =>
    match simpleIter offers carNum (input idx) with
    | .retry re => bumpStats (if re then 1 else 0) (simpleLoop offers input carNum fuel (idx + 1))
    | .finish r c => .ok (r, c, ⟨1, 0⟩)
    | .crash => .error ()

/-- `get_customer_order_simple`, as a function of the menu, the stream of
`listen` results and the current `_car_number`; returns the order dictionary,
the new `_car_number` and the session counters. -/
def runSimple (offers : List String) (input : Nat → Option String) (carNum : Nat) :
    Except Unit (SimpleResult × Nat × RunStats) :=
  simpleLoop offers input carNum (maxRepeats + 1) 0

example :
    runSimple ["A", "B", "C", "D"] (fun _ => some "2") 7 =
      .ok (confirmedResult 2 "B" 8, 8, ⟨1, 0⟩) := rfl
example :
    runSimple ["A", "B", "C", "D"] (fun _ => some "6") 7 =
      .ok (cancelledSimpleResult, 7, ⟨1, 0⟩) := rfl
example :
    runSimple ["A", "B", "C", "D"] (fun _ => none) 7 =
      .ok (emptySimpleResult, 7, ⟨4, 0⟩) := rfl
example :
    runSimple ["A", "B", "C", "D"] (fun k => if k < 3 then none else if k = 3 then some "0" else some "1") 0 =
      .ok (emptySimpleResult, 0, ⟨4, 1⟩) := rfl
example :
    runSimple ["A", "B", "C", "D"] (fun _ => some "0") 0 =
      .ok (emptySimpleResult, 0, ⟨4, 4⟩) := rfl

/-- One record handed to the operator (the dictionary built by
`handoff_to_operator`, or the small `cancelled` dictionary both hand-off
functions return for a cancelled order). Unused keys of the cancelled
dictionary are `none` / `[]` here. -/
structure HandoffInfo where
  customer_id : String
  cancelled : Bool
  order_id : Option String
  car_number : Option Nat
  full_order_text : Option String
  order_phrases : List String
  selected_offer : Option Nat
  offer_details : Option String
deriving DecidableEq, Repr

/-- The dictionary `handoff_to_operator` (and `handoff_to_operator_simple`)
returns for a cancelled order, without touching the queue. -/
def cancelledHandoffInfo (customerId : String) : HandoffInfo :=
  { customer_id := customerId, cancelled := true, order_id := none,
    car_number := none, full_order_text := none, order_phrases := [],
    selected_offer := none, offer_details := none }

/-- Python `order_data.get("order_id") or customer_id` (`None` and the empty
string are falsy). -/
def pyOrDefault (v : Option String) (d : String) : String :=
  match v with
  | none => d
  | some s => if s = "" then d else s

/-- The source's `handoff_to_operator`: for a cancelled order it returns the
small cancelled dictionary and pushes nothing; otherwise it builds the
hand-off record, pushes it onto `order_queue` (the returned list collects the
`order_queue.put` calls) and returns it. `Except.error ()` is the
`IndexError` of `self.special_offers[selected_offer - 1]`. -/
def handoffToOperator (specialOffers : List String) (customerId : String)
    (od : SimpleResult) : Except Unit (HandoffInfo × List HandoffInfo) :=
  if od.cancelled then .ok (cancelledHandoffInfo customerId, [])
  else
    let detailsE : Except Unit (Option String) :=
      match od.selected_offer with
      | some (i + 1) =>
        match specialOffers.get? i with
        | some o => .ok (some o)
        | none => .error ()
      | _ => .ok none
    match detailsE with
    | .error e => .error e
    | .ok details =>
      let info : HandoffInfo :=
        { customer_id := customerId, cancelled := false,
          order_id := some (pyOrDefault od.order_id customerId),
          car_number := od.car_number,
          full_order_text := od.full_order_text,
          order_phrases := od.order_phrases,
          selected_offer := od.selected_offer,
          offer_details := details }
      .ok (info, [info])

/-- The source's `handoff_to_operator_simple`: returns the cancelled
dictionary directly (no queue push) when the order was cancelled, otherwise
reads the order back and delegates to `handoff_to_operator`. -/
def handoffToOperatorSimple (specialOffers : List String) (customerId : String)
    (od : SimpleResult) : Except Unit (HandoffInfo × List HandoffInfo) :=
  if od.cancelled then .ok (cancelledHandoffInfo customerId, [])
  else handoffToOperator specialOffers customerId od

/-- `process_customer` on the simple flow: announce the menu, run
`get_customer_order_simple`, then `handoff_to_operator_simple`. Returns the
hand-off record, the list of queue pushes, the order dictionary, the new
`_car_number` and the session counters. -/
def processCustomerSimple (offers : List String) (customerId : String)
    (input : Nat → Option String) (carNum : Nat) :
    Except Unit (HandoffInfo × List HandoffInfo × SimpleResult × Nat × RunStats) :=
  match runSimple offers input carNum with
  | .error e => .error e
  | .ok (r, c, st) =>
    match handoffToOperatorSimple offers customerId r with
    | .error e => .error e
    | .ok (out, puts) => .ok (out, puts, r, c, st)

/-- The presence latch of `run`: `samples` are the successive observations of
`detect_car_approach`, `carDetected` the latch; the returned list holds
`true` exactly at the steps where `process_customer` is invoked. After each
step the latch equals the sample just observed. -/
def startFlags (carDetected : Bool) : List Bool → List Bool
  | [] => []
  | s :: rest => (s && !carDetected) :: startFlags s rest

example :
    startFlags false [true, true, false, true] = [true, false, false, true] := by decide
example :
    startFlags true [true, true, true] = [false, false, false] := by decide

/-- Outcome of the audio-capture phase of `listen`
(`recognizer.listen(source, timeout=..., phrase_time_limit=...)`): either
speech began before the timeout or `sr.WaitTimeoutError` was raised. -/
inductive Capture where
  | waitTimeout
  | audio
deriving DecidableEq, Repr

/-- Outcome of `recognizer.recognize_google(audio)`: transcribed text,
`sr.UnknownValueError`, or `sr.RequestError` (service failure). -/
inductive GoogleRes where
  | heard (t : String)
  | unknownValue
  | requestError
deriving DecidableEq, Repr

/-- The source's `listen`: `micPresent` is `self.microphone is not None`,
`useWhisper` is `self.use_whisper and self.whisper_model`, `whisperResult`
the text Whisper transcribed (`none` when Whisper raised and the code falls
back to Google). Every failure path in the source returns `None`. -/
def listenModel (micPresent useWhisper : Bool) (whisperResult : Option String)
    (capture : Capture) (google : GoogleRes) : Option String :=
  if !micPresent then none
  else
    match capture with
    | .waitTimeout => none
    | .audio =>
      match (if useWhisper then whisperResult else none) with
      | some t => some (pyStripStr t)
      | none =>
        match google with
        | .heard t => some t
        | .unknownValue => none
        | .requestError => none

/-- The source's `_process_order_with_ollama`: `clientPresent` is
`self.ollama_client`, `resp` the outcome of `ollama_client.generate` plus
response-text extraction (`Except.error ()` when it raised — caught by the
function's own `except`, which returns the input unchanged). -/
def processOrderWithOllama (clientPresent : Bool) (resp : Except Unit String)
    (order_text : String) : String :=
  match resp with
  | .error _ => order_text
  | .ok raw =>
    if clientPresent then
      let processed := pyStripStr raw
      if processed ≠ "" && !(lowerStr processed == lowerStr order_text) then processed
      else order_text
    else order_text

/-- The dictionary returned by `get_customer_order_continuous`. -/
structure ContResult where
  full_order_text : Option String
  selected_offer : Option Nat
  order_phrases : List String
deriving DecidableEq, Repr

/-- The tail of `get_customer_order_continuous` after `listen_continuous`
produced `phrases`: join the phrases, scan for a menu number over the whole
catalog, optionally post-process the text with Ollama, and build the result
dictionary. The confirmation dialogue only speaks and is omitted. -/
def continuousFinish (specialOffers : List String) (useOllama clientPresent : Bool)
    (resp : Except Unit String) (phrases : List String) : ContResult :=
  if phrases.isEmpty then
    { full_order_text := none, selected_offer := none, order_phrases := [] }
  else
    let full_order := String.intercalate ". " phrases
    let selected := findSelected (toLowerChars full_order.data)
      (List.range' 1 specialOffers.length)
    let full_order2 :=
      if useOllama && clientPresent && !(full_order == "") then
        let processed := processOrderWithOllama clientPresent resp full_order
        if processed ≠ "" then processed else full_order
      else full_order
    { full_order_text := some full_order2, selected_offer := selected,
      order_phrases := phrases }

lemma findSelected_mem {rl : List Char} {l : List Nat} {i : Nat}
    (h : findSelected rl l = some i) : i ∈ l := by
  induction l with
  | nil => simp [findSelected] at h
  | cons j rest ih =>
    rw [findSelected] at h
    by_cases hj : trigger j rl = true
    · simp [hj] at h
      simp [h]
    · simp [hj] at h
      exact List.mem_cons_of_mem _ (ih h)

lemma classify_chooseItem_find {rl : List Char} {i : Nat}
    (h : classifyCmd rl = .chooseItem i) :
    findSelected rl (List.range' 1 menuChoices) = some i := by
  unfold classifyCmd at h
  split at h
  · cases h
  · split at h
    · cases h
    · split at h
      · cases h
        assumption
      · cases h

lemma simpleIter_finish_cases {offers : List String} {carNum : Nat}
    {resp : Option String} {r : SimpleResult} {c : Nat}
    (h : simpleIter offers carNum resp = .finish r c) :
    (r = cancelledSimpleResult ∧ c = carNum) ∨
    (∃ i d, r = confirmedResult i d (carNum + 1) ∧ c = carNum + 1 ∧
      i ∈ List.range' 1 menuChoices) := by
  unfold simpleIter at h
  rcases resp with _ | s
  · simp at h
  · simp only at h
    by_cases he : (pyStrip s.data).isEmpty
    · simp [he] at h
    · simp only [he, Bool.false_eq_true, if_false] at h
      rcases hc : classifyCmd (pyStrip (toLowerChars (pyStrip s.data))) with _ | _ | i | _ <;>
        simp only [hc] at h
      · cases h
      · injection h with h1 h2
        exact Or.inl ⟨h1.symm, h2.symm⟩
      · have hi : i ∈ List.range' 1 menuChoices :=
          findSelected_mem (classify_chooseItem_find hc)
        by_cases hg : (i != 0 && !(offers.take menuChoices).isEmpty) = true
        · rw [if_pos hg] at h
          rcases ho : (offers.take menuChoices).get? (i - 1) with _ | o <;>
            simp only [ho] at h
          · cases h
          · injection h with h1 h2
            exact Or.inr ⟨i, o, h1.symm, h2.symm, hi⟩
        · rw [if_neg hg] at h
          injection h with h1 h2
          exact Or.inr ⟨i, _, h1.symm, h2.symm, hi⟩
      · cases h

lemma simpleLoop_ok_cases {offers : List String} {input : Nat → Option String}
    {carNum fuel idx : Nat} {r : SimpleResult} {c : Nat} {st : RunStats}
    (h : simpleLoop offers input carNum fuel idx = .ok (r, c, st)) :
    (r = emptySimpleResult ∧ c = carNum) ∨
    (r = cancelledSimpleResult ∧ c = carNum) ∨
    (∃ i d, r = confirmedResult i d (carNum + 1) ∧ c = carNum + 1 ∧
      i ∈ List.range' 1 menuChoices) := by
  induction fuel generalizing idx r c st with
  | zero =>
    rw [simpleLoop] at h
    simp only [Except.ok.injEq, Prod.mk.injEq] at h
    exact Or.inl ⟨h.1.symm, h.2.1.symm⟩
  | succ fuel ih =>
    rw [simpleLoop] at h
    rcases hit : simpleIter offers carNum (input idx) with b | ⟨r', c'⟩ | _ <;>
      simp only [hit] at h
    · rcases hrec : simpleLoop offers input carNum fuel (idx + 1) with e | ⟨r'', c'', st''⟩
      · rw [hrec] at h
        simp [bumpStats] at h
      · rw [hrec] at h
        simp only [bumpStats, Except.ok.injEq, Prod.mk.injEq] at h
        obtain ⟨h1, h2, _⟩ := h
        subst h1; subst h2
        exact ih hrec
    · simp only [Except.ok.injEq, Prod.mk.injEq] at h
      obtain ⟨h1, h2, _⟩ := h
      subst h1; subst h2
      rcases simpleIter_finish_cases hit with hca | hcf
      · exact Or.inr (Or.inl hca)
      · exact Or.inr (Or.inr hcf)
    · cases h

lemma simpleLoop_listens_le {offers : List String} {input : Nat → Option String}
    {carNum fuel idx : Nat} {r : SimpleResult} {c : Nat} {st : RunStats}
    (h : simpleLoop offers input carNum fuel idx = .ok (r, c, st)) :
    st.listens ≤ fuel := by
  induction fuel generalizing idx r c st with
  | zero =>
    rw [simpleLoop] at h
    simp only [Except.ok.injEq, Prod.mk.injEq] at h
    rw [← h.2.2]
  | succ fuel ih =>
    rw [simpleLoop] at h
    rcases hit : simpleIter offers carNum (input idx) with b | ⟨r', c'⟩ | _ <;>
      simp only [hit] at h
    · rcases hrec : simpleLoop offers input carNum fuel (idx + 1) with e | ⟨r'', c'', st''⟩
      · rw [hrec] at h
        simp [bumpStats] at h
      · rw [hrec] at h
        simp only [bumpStats, Except.ok.injEq, Prod.mk.injEq] at h
        rw [← h.2.2]
        exact Nat.succ_le_succ (ih hrec)
    · simp only [Except.ok.injEq, Prod.mk.injEq] at h
      rw [← h.2.2]
      exact Nat.succ_le_succ (Nat.zero_le _)
    · cases h

lemma simpleLoop_all_retry {offers : List String} {input : Nat → Option String}
    {carNum : Nat} (fuel idx : Nat)
    (h : ∀ k, ∃ b, simpleIter offers carNum (input k) = .retry b) :
    ∃ rean, simpleLoop offers input carNum fuel idx =
      .ok (emptySimpleResult, carNum, ⟨fuel, rean⟩) := by
  induction fuel generalizing idx with
  | zero => exact ⟨0, rfl⟩
  | succ fuel ih =>
    obtain ⟨b, hb⟩ := h idx
    obtain ⟨rean, hrec⟩ := ih (idx + 1)
    refine ⟨rean + (if b then 1 else 0), ?_⟩
    rw [simpleLoop]
    simp only [hb, hrec, bumpStats]

lemma startFlags_true_sample {cd : Bool} {samples : List Bool} {j : Nat}
    (h : (startFlags cd samples).get? j = some true) :
    samples.get? j = some true := by
  induction samples generalizing cd j with
  | nil => simp [startFlags] at h
  | cons s rest ih =>
    rcases j with _ | j
    · rw [startFlags] at h
      simp only [List.get?] at h ⊢
      have : (s && !cd) = true := by
        injection h
      exact congrArg some (Bool.and_elim_left this)
  
    · rw [startFlags] at h
      simp only [List.get?] at h ⊢
      exact ih h

lemma startFlags_prev_false {cd : Bool} {samples : List Bool} {j : Nat}
    (h : (startFlags cd samples).get? (j + 1) = some true) :
    samples.get? j = some false := by
  induction samples generalizing cd j with
  | nil => simp [startFlags] at h
  | cons s rest ih =>
    rw [startFlags] at h
    simp only [List.get?] at h
    rcases j with _ | j
    · rcases rest with _ | ⟨r, rest⟩
      · simp [startFlags] at h
      · rw [startFlags] at h
        simp only [List.get?] at h
        have hr : (r && !s) = true := by injection h
        have hs : s = false := by
          rcases s with _ | _
          · rfl
          · simp at hr
        simp [hs]
    · simp only [List.get?]
      exact ih h

lemma startFlags_replicate_true (n : Nat) :
    startFlags true (List.replicate n true) = List.replicate n false := by
  induction n with
  | zero => rfl
  | succ n ih =>
    rw [List.replicate_succ, startFlags, ih, List.replicate_succ]
    rfl

lemma classify_eq_of_triggers {a b : List Char}
    (h0 : trigger 0 a = trigger 0 b) (hx : repeatExtraCond a = repeatExtraCond b)
    (h6 : trigger 6 a = trigger 6 b) (h1 : trigger 1 a = trigger 1 b)
    (h2 : trigger 2 a = trigger 2 b) (h3 : trigger 3 a = trigger 3 b)
    (h4 : trigger 4 a = trigger 4 b) :
    classifyCmd a = classifyCmd b := by
  have hr : List.range' 1 menuChoices = [1, 2, 3, 4] := rfl
  unfold classifyCmd
  rw [hr]
  simp only [findSelected]
  rw [h0, hx, h6, h1, h2, h3, h4]

lemma classify_chooseItem_ne_zero {rl : List Char} {i : Nat}
    (h : classifyCmd rl = .chooseItem i) : i ≠ 0 := by
  have hi : i ∈ List.range' 1 menuChoices :=
    findSelected_mem (classify_chooseItem_find h)
  have hb : 1 ≤ i ∧ i < 1 + menuChoices := by simpa using hi
  omega

lemma simpleIter_congr {offers : List String} {carNum : Nat} {sA sB : String}
    (hm : (offers.take menuChoices).isEmpty = false)
    (hA : (pyStrip sA.data).isEmpty = false)
    (hB : (pyStrip sB.data).isEmpty = false)
    (hcl : classifyCmd (pyStrip (toLowerChars (pyStrip sA.data))) =
      classifyCmd (pyStrip (toLowerChars (pyStrip sB.data)))) :
    simpleIter offers carNum (some sA) = simpleIter offers carNum (some sB) := by
  unfold simpleIter
  simp only [hA, hB, Bool.false_eq_true, if_false]
  rw [hcl]
  rcases hc : classifyCmd (pyStrip (toLowerChars (pyStrip sB.data))) with _ | _ | i | _ <;>
    simp only [hc]
  have hiz : i ≠ 0 := classify_chooseItem_ne_zero hc
  have hguard : (i != 0 && !(offers.take menuChoices).isEmpty) = true := by
    rw [hm]
    simp [hiz]
  rw [if_pos hguard, if_pos hguard]

lemma simpleLoop_congr {offers : List String} {inputA inputB : Nat → Option String}
    {carNum : Nat}
    (h : ∀ k, simpleIter offers carNum (inputA k) = simpleIter offers carNum (inputB k)) :
    ∀ fuel idx, simpleLoop offers inputA carNum fuel idx =
      simpleLoop offers inputB carNum fuel idx := by
  intro fuel
  induction fuel with
  | zero =>
    intro idx
    rfl
  | succ fuel ih =>
    intro idx
    rw [simpleLoop, simpleLoop, h idx, ih (idx + 1)]

lemma simpleLoop_all_repeat {offers : List String} {input : Nat → Option String}
    {carNum : Nat} (fuel idx : Nat)
    (h : ∀ k, simpleIter offers carNum (input k) = .retry true) :
    simpleLoop offers input carNum fuel idx =
      .ok (emptySimpleResult, carNum, ⟨fuel, fuel⟩) := by
  induction fuel generalizing idx with
  | zero => rfl
  | succ fuel ih =>
    rw [simpleLoop]
    simp only [h idx, ih (idx + 1), bumpStats, if_true]

/-- C2: for every stream of listen results made only of timeouts,
unrecognized utterances and repeat requests, `get_customer_order_simple`
terminates with a result after exactly `max_repeats + 1` listen cycles (the
empty, not-cancelled dictionary), and in general any returned session
consumed at most `max_repeats + 1` listens — the loop never runs
indefinitely. -/
theorem claim_C2_bounded_termination :
    (∀ (offers : List String) (input : Nat → Option String) (carNum : Nat)
        (r : SimpleResult) (c : Nat) (st : RunStats),
      runSimple offers input carNum = .ok (r, c, st) →
      st.listens ≤ maxRepeats + 1) ∧
    (∀ (offers : List String) (input : Nat → Option String) (carNum : Nat),
      (∀ k, ∃ b, simpleIter offers carNum (input k) = .retry b) →
      ∃ rean, runSimple offers input carNum =
        .ok (emptySimpleResult, carNum, ⟨maxRepeats + 1, rean⟩)) := by
  constructor
  · intro offers input carNum r c st h
    exact simpleLoop_listens_le h
  · intro offers input carNum h
    exact simpleLoop_all_retry (maxRepeats + 1) 0 h

/-- Witness for C2 at the all-timeout stream. -/
theorem claim_C2_witness :
    ∃ rean, runSimple ["A", "B", "C", "D"] (fun _ => none) 5 =
      .ok (emptySimpleResult, 5, ⟨maxRepeats + 1, rean⟩) :=
  claim_C2_bounded_termination.2 ["A", "B", "C", "D"] (fun _ => none) 5
    (fun _ => ⟨false, rfl⟩)

/-- C10: every dictionary `get_customer_order_simple` returns has
`selected_offer` either `none` or in `1..4`; a selection exists exactly when
a car number exists; a selecting session is not cancelled, carries
`_car_number + 1` as its car number and is the only kind of session that
changes the counter (by exactly one). -/
theorem claim_C10_result_invariant
    (offers : List String) (input : Nat → Option String) (carNum : Nat)
    (r : SimpleResult) (c : Nat) (st : RunStats)
    (h : runSimple offers input carNum = .ok (r, c, st)) :
    (r.selected_offer = none ∨
      ∃ i, r.selected_offer = some i ∧ 1 ≤ i ∧ i ≤ menuChoices) ∧
    (r.selected_offer.isSome ↔ r.car_number.isSome) ∧
    (∀ i, r.selected_offer = some i →
      r.cancelled = false ∧ r.car_number = some c ∧ c = carNum + 1) ∧
    (r.selected_offer = none → c = carNum) := by
  rcases simpleLoop_ok_cases h with ⟨hr, hc⟩ | ⟨hr, hc⟩ | ⟨i, d, hr, hc, hi⟩
  · subst hr; subst hc
    refine ⟨Or.inl rfl, by simp [emptySimpleResult], ?_, fun _ => rfl⟩
    intro i hi
    simp [emptySimpleResult] at hi
  · subst hr; subst hc
    refine ⟨Or.inl rfl, by simp [cancelledSimpleResult, emptySimpleResult], ?_, fun _ => rfl⟩
    intro i hi
    simp [cancelledSimpleResult, emptySimpleResult] at hi
  · subst hr; subst hc
    have hb : 1 ≤ i ∧ i ≤ menuChoices := by
      have h14 : 1 ≤ i ∧ i < 1 + menuChoices := by simpa using hi
      exact ⟨h14.1, by omega⟩
    refine ⟨Or.inr ⟨i, rfl, hb⟩, by simp [confirmedResult], ?_, ?_⟩
    · intro i' hi'
      exact ⟨rfl, rfl, rfl⟩
    · intro hn
      simp [confirmedResult] at hn

/-- Witness for C10 at a session that selects item 2. -/
theorem claim_C10_witness :
    (confirmedResult 2 "B" 1).cancelled = false ∧
    (confirmedResult 2 "B" 1).car_number = some 1 ∧ 1 = 0 + 1 :=
  (claim_C10_result_invariant ["A", "B", "C", "D"] (fun _ => some "2") 0
    (confirmedResult 2 "B" 1) 1 ⟨1, 0⟩ rfl).2.2.1 2 rfl

/-- C7 counterexample: a session cancelled on its first utterance completes
with `car_number = None` and an unchanged `_car_number` — no vehicle
sequence number is ever assigned to it, although the claim says every
session is assigned one on the arrival edge, before announcing. -/
theorem claim_C7_counterexample :
    runSimple ["A", "B", "C", "D"] (fun _ => some "6") 0 =
      .ok (cancelledSimpleResult, 0, ⟨1, 0⟩) ∧
    cancelledSimpleResult.car_number = none := ⟨rfl, rfl⟩

/-- C7 amended: the human-facing car number is assigned only at
confirmation, not on the arrival edge: `_car_number` is incremented exactly
when a selection is confirmed and the confirmed dictionary carries the
incremented value, while cancelled and abandoned sessions carry no car
number and leave the counter unchanged. -/
theorem claim_C7_car_number_at_confirmation
    (offers : List String) (input : Nat → Option String) (carNum : Nat)
    (r : SimpleResult) (c : Nat) (st : RunStats)
    (h : runSimple offers input carNum = .ok (r, c, st)) :
    (r.selected_offer = none → r.car_number = none ∧ c = carNum) ∧
    (∀ i, r.selected_offer = some i →
      r.car_number = some (carNum + 1) ∧ c = carNum + 1) := by
  rcases simpleLoop_ok_cases h with ⟨hr, hc⟩ | ⟨hr, hc⟩ | ⟨i, d, hr, hc, hi⟩
  · subst hr; subst hc
    refine ⟨fun _ => ⟨rfl, rfl⟩, ?_⟩
    intro i hi
    simp [emptySimpleResult] at hi
  · subst hr; subst hc
    refine ⟨fun _ => ⟨rfl, rfl⟩, ?_⟩
    intro i hi
    simp [cancelledSimpleResult, emptySimpleResult] at hi
  · subst hr; subst hc
    refine ⟨?_, fun i' _ => ⟨rfl, rfl⟩⟩
    intro hn
    simp [confirmedResult] at hn

/-- Witness for (amended) C7 at a cancelled session. -/
theorem claim_C7_witness :
    cancelledSimpleResult.car_number = none ∧ 0 = 0 :=
  (claim_C7_car_number_at_confirmation ["A", "B", "C", "D"] (fun _ => some "6") 0
    cancelledSimpleResult 0 ⟨1, 0⟩ rfl).1 rfl

/-- C5 counterexample: after three timeouts, a recognized repeat request on
the fourth listen re-announces the menu but does not reset any attempt
counter — the session ends abandoned (4 listens, 1 re-announcement) and the
selection "1" waiting on the stream is never heard, although the claim says
a repeat below the limit resets the attempt counter to 0 and listens
again. -/
theorem claim_C5_counterexample :
    runSimple ["A", "B", "C", "D"]
      (fun k => if k < 3 then none else if k = 3 then some "0" else some "1") 0 =
      .ok (emptySimpleResult, 0, ⟨4, 1⟩) := rfl

/-- C5 amended: a recognized repeat request re-announces the full menu and
consumes one iteration of the single shared budget of `max_repeats + 1`
listen cycles (shared with timeouts and unrecognized utterances; there is no
separate per-announcement attempt counter). A stream of nothing but repeat
requests is re-announced to on every one of the `max_repeats + 1`
iterations — including the last — and then the session returns the
abandoned dictionary. -/
theorem claim_C5_repeat_budget :
    (∀ (offers : List String) (input : Nat → Option String) (carNum fuel idx : Nat),
      simpleIter offers carNum (input idx) = .retry true →
      simpleLoop offers input carNum (fuel + 1) idx =
        bumpStats 1 (simpleLoop offers input carNum fuel (idx + 1))) ∧
    (∀ (offers : List String) (input : Nat → Option String) (carNum : Nat),
      (∀ k, simpleIter offers carNum (input k) = .retry true) →
      runSimple offers input carNum =
        .ok (emptySimpleResult, carNum, ⟨maxRepeats + 1, maxRepeats + 1⟩)) := by
  constructor
  · intro offers input carNum fuel idx h
    rw [simpleLoop]
    simp only [h, if_true]
  · intro offers input carNum h
    exact simpleLoop_all_repeat (maxRepeats + 1) 0 h

/-- Witness for (amended) C5 at the all-repeat stream. -/
theorem claim_C5_witness :
    runSimple ["A", "B", "C", "D"] (fun _ => some "0") 0 =
      .ok (emptySimpleResult, 0, ⟨maxRepeats + 1, maxRepeats + 1⟩) :=
  claim_C5_repeat_budget.2 ["A", "B", "C", "D"] (fun _ => some "0") 0
    (fun _ => rfl)

/-- C3: single-flight of the `run` loop. Between any two invocations of
`process_customer` there is an observed sample with the car-present signal
false, and while the latch is set a run of consecutive true samples starts
no session at all — a second arrival observed while a session is active (or
before the signal has cleared) creates no new session. Sessions cannot
overlap: `process_customer` runs to completion inside the loop step that
starts it. -/
theorem claim_C3_single_flight :
    (∀ (cd : Bool) (samples : List Bool) (i j : Nat), i < j →
      (startFlags cd samples).get? i = some true →
      (startFlags cd samples).get? j = some true →
      ∃ k, i < k ∧ k < j ∧ samples.get? k = some false) ∧
    (∀ n : Nat, startFlags true (List.replicate n true) = List.replicate n false) := by
  constructor
  · intro cd samples i j hij hi hj
    rcases j with _ | j'
    · omega
    · have hfalse : samples.get? j' = some false := startFlags_prev_false hj
      have htrue : samples.get? i = some true := startFlags_true_sample hi
      refine ⟨j', ?_, Nat.lt_succ_self j', hfalse⟩
      rcases Nat.lt_or_ge i j' with hlt | hge
      · exact hlt
      · have heq : i = j' := Nat.le_antisymm (Nat.lt_succ_iff.mp hij) hge
        rw [heq] at htrue
        rw [htrue] at hfalse
        simp at hfalse
  · exact startFlags_replicate_true

/-- Witness for C3: samples true, false, true start sessions at steps 0 and
2, with the required false sample in between. -/
theorem claim_C3_witness :
    ∃ k, 0 < k ∧ k < 2 ∧ [true, false, true].get? k = some false :=
  claim_C3_single_flight.1 false [true, false, true] 0 2 (by decide)
    (by decide) (by decide)

/-- C6 counterexample: a recognition-service failure (`sr.RequestError`)
makes `listen` return the same `None` a plain timeout returns — no error
value is produced and the caller cannot distinguish the two cases, although
the claim says service failure yields an error result distinguishable from a
timeout. -/
theorem claim_C6_counterexample :
    listenModel true false none .audio .requestError = none ∧
    listenModel true false none .waitTimeout (.heard "x") = none ∧
    listenModel true false none .audio .requestError =
      listenModel true false none .waitTimeout (.heard "x") := ⟨rfl, rfl, rfl⟩

/-- C6 amended: a timeout with no speech yields `None` (not a failure), but
so do a missing microphone, unintelligible audio and a recognition-service
error — `listen` returns text exactly on successful transcription and
collapses every failure, including service failure, to the same `None`. -/
theorem claim_C6_listen_none :
    (∀ (uw : Bool) (wr : Option String) (g : GoogleRes),
      listenModel true uw wr .waitTimeout g = none) ∧
    (∀ (uw : Bool) (wr : Option String) (cap : Capture) (g : GoogleRes),
      listenModel false uw wr cap g = none) ∧
    (∀ uw : Bool, listenModel true uw none .audio .unknownValue = none) ∧
    (∀ uw : Bool, listenModel true uw none .audio .requestError = none) ∧
    (∀ t : String, listenModel true false none .audio (.heard t) = some t) ∧
    (∀ (uw : Bool) (g : GoogleRes),
      listenModel true uw none .audio .requestError =
        listenModel true uw none .waitTimeout g) := by
  refine ⟨?_, ?_, ?_, ?_, ?_, ?_⟩
  · intro uw wr g
    rfl
  · intro uw wr cap g
    rfl
  · intro uw
    cases uw <;> rfl
  · intro uw
    cases uw <;> rfl
  · intro t
    rfl
  · intro uw g
    cases uw <;> rfl

/-- C8: the Ollama post-processor returns the original text unchanged on any
failure (and otherwise either the original or the stripped response), and
the post-processing stage of `get_customer_order_continuous` never changes
`selected_offer` or `order_phrases`; with a failing post-processor the whole
result dictionary is the same as with the post-processor disabled. -/
theorem claim_C8_postprocessor :
    (∀ (client : Bool) (txt : String),
      processOrderWithOllama client (.error ()) txt = txt) ∧
    (∀ (client : Bool) (raw txt : String),
      processOrderWithOllama client (.ok raw) txt = txt ∨
      processOrderWithOllama client (.ok raw) txt = pyStripStr raw) ∧
    (∀ (offers : List String) (u1 c1 u2 c2 : Bool)
        (r1 r2 : Except Unit String) (phrases : List String),
      (continuousFinish offers u1 c1 r1 phrases).selected_offer =
        (continuousFinish offers u2 c2 r2 phrases).selected_offer ∧
      (continuousFinish offers u1 c1 r1 phrases).order_phrases =
        (continuousFinish offers u2 c2 r2 phrases).order_phrases) ∧
    (∀ (offers : List String) (r : Except Unit String) (phrases : List String),
      continuousFinish offers true true (.error ()) phrases =
        continuousFinish offers false false r phrases) := by
  refine ⟨?_, ?_, ?_, ?_⟩
  · intro client txt
    rfl
  · intro client raw txt
    cases client
    · exact Or.inl rfl
    · by_cases h1 : pyStripStr raw = ""
      · left
        simp [processOrderWithOllama, h1]
      · by_cases h2 : lowerStr (pyStripStr raw) = lowerStr txt
        · left
          simp [processOrderWithOllama, h1, h2]
        · right
          simp [processOrderWithOllama, h1, h2]
  · intro offers u1 c1 u2 c2 r1 r2 phrases
    by_cases hp : phrases.isEmpty <;> simp [continuousFinish, hp]
  · intro offers r phrases
    by_cases hp : phrases.isEmpty
    · simp [continuousFinish, hp]
    · simp only [continuousFinish, hp, Bool.false_eq_true, if_false,
        processOrderWithOllama, Bool.true_and, Bool.false_and]
      by_cases hfo : (String.intercalate ". " phrases == "") = true
      · simp [hfo]
      · simp only [Bool.not_eq_true] at hfo
        simp [hfo]

lemma handoffSimple_cancelled {offers : List String} {cid : String}
    {od : SimpleResult} {out : HandoffInfo} {puts : List HandoffInfo}
    (hc : od.cancelled = true)
    (h : handoffToOperatorSimple offers cid od = .ok (out, puts)) :
    out = cancelledHandoffInfo cid ∧ puts = [] := by
  unfold handoffToOperatorSimple at h
  simp only [hc, if_true, Except.ok.injEq, Prod.mk.injEq] at h
  exact ⟨h.1.symm, h.2.symm⟩

lemma handoffSimple_not_cancelled {offers : List String} {cid : String}
    {od : SimpleResult} {out : HandoffInfo} {puts : List HandoffInfo}
    (hc : od.cancelled = false)
    (h : handoffToOperatorSimple offers cid od = .ok (out, puts)) :
    puts = [out] ∧ out.cancelled = false ∧
    out.selected_offer = od.selected_offer ∧ out.car_number = od.car_number ∧
    out.full_order_text = od.full_order_text ∧
    out.order_phrases = od.order_phrases := by
  unfold handoffToOperatorSimple handoffToOperator at h
  simp only [hc, Bool.false_eq_true, if_false] at h
  rcases hsel : od.selected_offer with _ | i
  · simp only [hsel] at h
    simp only [Except.ok.injEq, Prod.mk.injEq] at h
    obtain ⟨ho, hp⟩ := h
    subst ho
    exact ⟨hp.symm, rfl, rfl, rfl, rfl, rfl⟩
  · rcases i with _ | i
    · simp only [hsel] at h
      simp only [Except.ok.injEq, Prod.mk.injEq] at h
      obtain ⟨ho, hp⟩ := h
      subst ho
      exact ⟨hp.symm, rfl, rfl, rfl, rfl, rfl⟩
    · simp only [hsel] at h
      rcases hg : offers.get? i with _ | o
      · simp only [hg] at h
        cases h
      · simp only [hg, Except.ok.injEq, Prod.mk.injEq] at h
        obtain ⟨ho, hp⟩ := h
        subst ho
        exact ⟨hp.symm, rfl, rfl, rfl, rfl, rfl⟩

/-- C1 counterexample: a session cancelled on its first utterance completes,
yet the list of `order_queue.put` calls is empty — no `OrderOutcome` is
pushed for a cancelled session (both hand-off functions return the cancelled
dictionary before reaching the queue), although the claim says exactly one
record with outcome Cancelled is pushed. -/
theorem claim_C1_counterexample :
    processCustomerSimple ["A", "B", "C", "D"] "CUST" (fun _ => some "6") 0 =
      .ok (cancelledHandoffInfo "CUST", [], cancelledSimpleResult, 0, ⟨1, 0⟩) := rfl

/-- C1 amended: a completed simple-flow session pushes exactly one record
onto the hand-off queue when it ends confirmed or abandoned — the pushed
record being the returned one, with fields copied from the order
dictionary — and pushes nothing when it ends cancelled. -/
theorem claim_C1_handoff_pushes
    (offers : List String) (customerId : String) (input : Nat → Option String)
    (carNum : Nat) (out : HandoffInfo) (puts : List HandoffInfo)
    (r : SimpleResult) (c : Nat) (st : RunStats)
    (h : processCustomerSimple offers customerId input carNum =
      .ok (out, puts, r, c, st)) :
    puts.length = (if r.cancelled then 0 else 1) ∧
    (r.cancelled = true → puts = []) ∧
    (r.cancelled = false → puts = [out] ∧ out.cancelled = false ∧
      out.selected_offer = r.selected_offer ∧ out.car_number = r.car_number ∧
      out.full_order_text = r.full_order_text) := by
  unfold processCustomerSimple at h
  rcases hrs : runSimple offers input carNum with e | ⟨r0, c0, st0⟩
  · simp only [hrs] at h
    cases h
  · simp only [hrs] at h
    rcases hho : handoffToOperatorSimple offers customerId r0 with e | ⟨out0, puts0⟩
    · simp only [hho] at h
      cases h
    · simp only [hho, Except.ok.injEq, Prod.mk.injEq] at h
      obtain ⟨h1, h2, h3, h4, h5⟩ := h
      subst h1; subst h2; subst h3; subst h4; subst h5
      rcases hcz : r0.cancelled with _ | _
      · obtain ⟨hp, ho2, hsel, hcar, hfot, _⟩ := handoffSimple_not_cancelled hcz hho
        subst hp
        refine ⟨by simp, ?_, ?_⟩
        · intro hcontra
          cases hcontra
        · intro _
          exact ⟨rfl, ho2, hsel, hcar, hfot⟩
      · obtain ⟨ho2, hp⟩ := handoffSimple_cancelled hcz hho
        subst hp
        refine ⟨by simp, fun _ => rfl, ?_⟩
        intro hcontra
        cases hcontra

/-- Witness for (amended) C1 at a session that confirms item 2: exactly one
record is pushed. -/
theorem claim_C1_witness :
    [({ customer_id := "CUST", cancelled := false, order_id := some "Car 1",
        car_number := some 1, full_order_text := some "B",
        order_phrases := ["B"], selected_offer := some 2,
        offer_details := some "B" } : HandoffInfo)].length =
      (if (confirmedResult 2 "B" 1).cancelled then 0 else 1) :=
  (claim_C1_handoff_pushes ["A", "B", "C", "D"] "CUST" (fun _ => some "2") 0
    _ _ _ _ _ rfl).1

/-- C4 counterexample: with carrier text `zer…`, code 1 as the digit string
(`"zer1"`) selects item 1 and confirms, while code 1 as the number word
(`"zerone"`, which contains `"one"`) matches `"zero"` first and repeats the
menu, so the session ends abandoned — different transition and different
returned record, although the claim says the two forms are interchangeable
in arbitrary carrier text. -/
theorem claim_C4_counterexample :
    hasSub ((Nat.repr 1).data) ("zer1".data) = true ∧
    hasSub ((numberToWord 1).data) ("zerone".data) = true ∧
    runSimple ["A", "B", "C", "D"] (fun k => if k = 0 then some "zer1" else none) 0 =
      .ok (confirmedResult 1 "A" 1, 1, ⟨1, 0⟩) ∧
    runSimple ["A", "B", "C", "D"] (fun k => if k = 0 then some "zerone" else none) 0 =
      .ok (emptySimpleResult, 0, ⟨4, 1⟩) :=
  ⟨by decide, by decide, rfl, rfl⟩

/-- C4 amended: recognizing the digit string for a code and recognizing its
number word yield identical transitions provided the two utterances agree on
every other code's trigger (digit-or-word containment) and on the short
`"repeat"` trigger — i.e. unless the carrier text combines with the inserted
form to produce an occurrence of a different recognized pattern (or changes
which side of the 15-character repeat threshold the text falls on). Under a
non-empty menu slice, two utterances that classify identically also produce
the identical iteration outcome — hence the same returned record fields —
and two listen streams with pointwise-identical iteration outcomes return
the identical order dictionary. (With an empty menu slice the confirmed
dictionary embeds the raw utterance text, so even same-classifying forms
return different records there.) -/
theorem claim_C4_code_equivalence :
    (∀ (c : Nat) (a b : List Char),
      c ∈ ([0, 1, 2, 3, 4, 6] : List Nat) →
      hasSub ((Nat.repr c).data) a = true →
      hasSub ((numberToWord c).data) b = true →
      (∀ j ∈ ([0, 1, 2, 3, 4, 6] : List Nat), j ≠ c →
        trigger j a = trigger j b) →
      repeatExtraCond a = repeatExtraCond b →
      classifyCmd a = classifyCmd b) ∧
    (∀ (offers : List String) (carNum : Nat) (sA sB : String),
      (offers.take menuChoices).isEmpty = false →
      (pyStrip sA.data).isEmpty = false →
      (pyStrip sB.data).isEmpty = false →
      classifyCmd (pyStrip (toLowerChars (pyStrip sA.data))) =
        classifyCmd (pyStrip (toLowerChars (pyStrip sB.data))) →
      simpleIter offers carNum (some sA) = simpleIter offers carNum (some sB)) ∧
    (∀ (offers : List String) (inputA inputB : Nat → Option String) (carNum : Nat),
      (∀ k, simpleIter offers carNum (inputA k) =
        simpleIter offers carNum (inputB k)) →
      runSimple offers inputA carNum = runSimple offers inputB carNum) := by
  refine ⟨?_, ?_, ?_⟩
  · intro c a b _ ha hb hagree hx
    have tca : trigger c a = true := by
      unfold trigger
      rw [ha]
      rfl
    have tcb : trigger c b = true := by
      unfold trigger
      rw [hb]
      simp
    have key : ∀ j ∈ ([0, 1, 2, 3, 4, 6] : List Nat), trigger j a = trigger j b := by
      intro j hj
      by_cases hjc : j = c
      · rw [hjc, tca, tcb]
      · exact hagree j hj hjc
    exact classify_eq_of_triggers (key 0 (by simp)) hx (key 6 (by simp))
      (key 1 (by simp)) (key 2 (by simp)) (key 3 (by simp)) (key 4 (by simp))
  · intro offers carNum sA sB hm hA hB hcl
    exact simpleIter_congr hm hA hB hcl
  · intro offers inputA inputB carNum h
    exact simpleLoop_congr h (maxRepeats + 1) 0

/-- Witness for (amended) C4: `"number 2"` and `"number two"` classify
identically, produce the same iteration outcome on a four-item menu, and the
two constant streams return the identical order dictionary. -/
theorem claim_C4_witness :
    classifyCmd ("number 2".data) = classifyCmd ("number two".data) ∧
    simpleIter ["A", "B", "C", "D"] 0 (some "number 2") =
      simpleIter ["A", "B", "C", "D"] 0 (some "number two") ∧
    runSimple ["A", "B", "C", "D"] (fun _ => some "number 2") 0 =
      runSimple ["A", "B", "C", "D"] (fun _ => some "number two") 0 :=
  have hiter : simpleIter ["A", "B", "C", "D"] 0 (some "number 2") =
      simpleIter ["A", "B", "C", "D"] 0 (some "number two") := by decide
  ⟨claim_C4_code_equivalence.1 2 ("number 2".data) ("number two".data)
    (by decide) (by decide) (by decide) (by decide) (by decide),
   claim_C4_code_equivalence.2.1 ["A", "B", "C", "D"] 0 "number 2" "number two"
    (by decide) (by decide) (by decide) (by decide),
   claim_C4_code_equivalence.2.2 ["A", "B", "C", "D"]
    (fun _ => some "number 2") (fun _ => some "number two") 0
    (fun _ => hiter)⟩

/-- C9 counterexample: the utterance `"repeat six"` contains `"six"` and
contains neither `"0"` nor `"zero"`, yet it triggers a menu repeat (via the
undocumented short-`"repeat"` trigger) rather than a cancel, and a session
fed it never cancels — against the claim that any utterance not containing
the repeat code `0` that contains `"6"` or `"six"` cancels. -/
theorem claim_C9_counterexample :
    hasSub (("six".data)) ("repeat six".data) = true ∧
    hasSub ((Nat.repr 0).data) ("repeat six".data) = false ∧
    hasSub (("zero".data)) ("repeat six".data) = false ∧
    classifyCmd ("repeat six".data) = .repeatMenu ∧
    runSimple ["A", "B", "C", "D"] (fun _ => some "repeat six") 0 =
      .ok (emptySimpleResult, 0, ⟨4, 4⟩) :=
  ⟨by decide, by decide, by decide, by decide, rfl⟩

/-- C9 amended: the checks run in source order with repeat first, cancel
second, selection 1..4 last, each by substring containment on the lowercased
text — but the repeat branch also fires when the text contains `"repeat"`
and is shorter than 15 characters. Containing `"0"` or `"zero"` forces a
repeat whatever else the text contains; an utterance on which no repeat
condition fires cancels whenever it contains `"6"` or `"six"`, whatever
selectable codes it contains; otherwise the first selectable code in
`1..4` contained in the text wins. -/
theorem claim_C9_priority :
    (∀ rl : List Char,
      hasSub ((Nat.repr 0).data) rl = true ∨ hasSub (("zero".data)) rl = true →
      classifyCmd rl = .repeatMenu) ∧
    (∀ rl : List Char, repeatExtraCond rl = true → classifyCmd rl = .repeatMenu) ∧
    (∀ rl : List Char, trigger 0 rl = false → repeatExtraCond rl = false →
      hasSub ((Nat.repr 6).data) rl = true ∨ hasSub (("six".data)) rl = true →
      classifyCmd rl = .cancelOrder) ∧
    (∀ (rl : List Char) (i : Nat), trigger 0 rl = false →
      repeatExtraCond rl = false → trigger 6 rl = false →
      findSelected rl (List.range' 1 menuChoices) = some i →
      classifyCmd rl = .chooseItem i) := by
  refine ⟨?_, ?_, ?_, ?_⟩
  · intro rl h
    have t0 : trigger 0 rl = true := by
      unfold trigger
      rcases h with h | h
      · rw [h]
        rfl
      · have hz : (numberToWord 0).data = "zero".data := rfl
        rw [hz, h]
        simp
    simp [classifyCmd, t0]
  · intro rl h
    simp [classifyCmd, h]
  · intro rl h0 hx h
    have t6 : trigger 6 rl = true := by
      unfold trigger
      rcases h with h | h
      · rw [h]
        rfl
      · have hz : (numberToWord 6).data = "six".data := rfl
        rw [hz, h]
        simp
    simp [classifyCmd, h0, hx, t6]
  · intro rl i h0 hx h6 hf
    simp [classifyCmd, h0, hx, h6, hf]

/-- Witness for (amended) C9: an utterance containing all of `0`, `6` and
`2` repeats; one containing `6` and `2` but no repeat trigger cancels. -/
theorem claim_C9_witness :
    classifyCmd ("zero six two".data) = .repeatMenu ∧
    classifyCmd ("6 2".data) = .cancelOrder :=
  ⟨claim_C9_priority.1 ("zero six two".data) (Or.inr (by decide)),
   claim_C9_priority.2.2.1 ("6 2".data) (by decide) (by decide)
     (Or.inl (by decide))⟩
